import Mathlib

/-!
Verification of the Superstore sales dashboard script (project21.py).

The script is a linear streamlit program: load a CSV (caching aside), coerce
the Order Date column and drop unparseable dates, offer two multiselect
filters (Region, Category) defaulting to all distinct values, filter the
dataframe, and render metrics, a bar chart, a pie chart and a raw table,
stopping early on load failure or an empty filtered view.

Shallow embedding choices:
- a dataframe is a Lean List of records, in file order; pandas row selection
  (query, dropna) becomes List.filter, column access becomes List.map;
- the float-valued Sales and Profit columns are modelled as exact rationals;
  Python int() truncation and round(x, 2) banker's rounding are modelled
  exactly on those rationals;
- the streamlit page is modelled as the list of sections the script emits in
  order; st.stop ends the list; the values returned by the two multiselect
  widgets are inputs of the render function;
- the filesystem is an input: ReadResult says whether pd.read_csv would
  succeed with which rows, raise FileNotFoundError, or raise another error.
-/

/-- Calendar date as parsed from the MM/DD/YYYY strings of the Order Date
column (pd.to_datetime with format %m/%d/%Y). -/
structure MDY where
  month : ℕ
  day : ℕ
  year : ℕ
deriving DecidableEq, Repr

/-- Gregorian leap-year rule, used to validate day-of-month as the datetime
parser does. -/
def isLeapYear (y : ℕ) : Bool :=
  y % 4 == 0 && (y % 100 != 0 || y % 400 == 0)

/-- Number of days in a month, for date validation. -/
def daysInMonth (m y : ℕ) : ℕ :=
  if m = 2 then (if isLeapYear y then 29 else 28)
  else if m = 4 ∨ m = 6 ∨ m = 9 ∨ m = 11 then 30
  else 31

/-- Parsing one Order Date cell: pd.to_datetime(s, format = %m/%d/%Y,
errors = coerce) on a single string, where failure (None here) stands for
the NaT that the coercion produces.  The format requires three slash
separated decimal fields; month and day may have one or two digits as with
strptime, and the date must be a valid calendar date.  (The nanosecond
range limit of pandas timestamps is not modelled; no claim depends on which
particular strings parse.) -/
def parseMDY (s : String) : Option MDY :=
  match s.splitOn ("/") with
  | [ms, ds, ys] =>
    match ms.toNat?, ds.toNat?, ys.toNat? with
    | some m, some d, some y =>
      if 1 ≤ m ∧ m ≤ 12 ∧ 1 ≤ d ∧ d ≤ daysInMonth m y then some ⟨m, d, y⟩
      else none
    | _, _, _ => none
  | _ => none

/-- A raw CSV row, before date coercion: the Order Date column is still the
string read from the file.  Sales and Profit are the exact values of the
float column. -/
structure RawRecord where
  region : String
  category : String
  subCategory : String
  orderDate : String
  sales : ℚ
  profit : ℚ
deriving DecidableEq, Repr

/-- A dataframe row after the Order Date column has been coerced by
pd.to_datetime(errors = coerce): the date is either a parsed value or
None (NaT). -/
structure Record where
  region : String
  category : String
  subCategory : String
  orderDate : Option MDY
  sales : ℚ
  profit : ℚ
deriving DecidableEq, Repr

/-- One row of the assignment df[Order Date] = pd.to_datetime(...): every
column is kept, the Order Date string is replaced by its coerced parse. -/
def coerceOrderDate (r : RawRecord) : Record :=
  { region := r.region, category := r.category, subCategory := r.subCategory,
    orderDate := parseMDY r.orderDate, sales := r.sales, profit := r.profit }

/-- Body of load_data on a successful read: coerce the Order Date column,
then df.dropna(subset = [Order Date]) removes the rows whose coercion
produced NaT. -/
def load_data_rows (rows : List RawRecord) : List Record :=
  (rows.map coerceOrderDate).filter (fun r => r.orderDate.isSome)

/-- Outcome of pd.read_csv on the fixed path: the parsed rows, a
FileNotFoundError, or any other exception carrying a message. -/
inductive ReadResult where
  | ok (rows : List RawRecord)
  | fileNotFound
  | otherError (msg : String)
deriving DecidableEq, Repr

/-- load_data: on success the prepared dataframe; on FileNotFoundError the
fixed error message is shown via st.error and None is returned; on any
other exception the message of the exception is shown and None is
returned.  Except.error carries the text passed to st.error.  (The quote
characters that the Python f-string puts around the path are omitted.) -/
def load_data (input : ReadResult) : Except String (List Record) :=
  match input with
  | ReadResult.ok rows => Except.ok (load_data_rows rows)
  | ReadResult.fileNotFound =>
      Except.error ("Error: The file superstore_sales.csv was not found. Please make sure it is in the same folder as the script.")
  | ReadResult.otherError e =>
      Except.error ("An error occurred while loading the data: " ++ e)

/-- Distinct values of a column in first-encounter order, as returned by
Series.unique(), used for the options and defaults of both multiselect
widgets. -/
def uniques : List String → List String
  | [] => []
  | x :: xs => x :: uniques (xs.filter (fun y => decide (y ≠ x)))
termination_by l => l.length
decreasing_by simpa using Nat.lt_succ_of_le (List.length_filter_le _ _)

/-- df.query(Region == @region & Category == @category): pandas evaluates a
comparison of a column with a list as membership, so a row passes iff its
Region is one of the selected regions and its Category one of the selected
categories. -/
def df_selection (df : List Record) (region category : List String) : List Record :=
  df.filter (fun r => decide (r.region ∈ region) && decide (r.category ∈ category))

/-- Python int() applied to a float: truncation toward zero. -/
def pyInt (q : ℚ) : ℤ :=
  if 0 ≤ q then ⌊q⌋ else ⌈q⌉

/-- Sum of one numeric column over a dataframe: Series.sum(). -/
def colSum (col : Record → ℚ) (rows : List Record) : ℚ :=
  (rows.map col).sum

/-- Series.mean(): sum divided by row count. -/
def seriesMean (col : Record → ℚ) (rows : List Record) : ℚ :=
  colSum col rows / rows.length

/-- Python round to the nearest integer with ties to even (banker's
rounding), the semantics of the built-in round. -/
def roundHalfEven (q : ℚ) : ℤ :=
  if q - ⌊q⌋ < 1 / 2 then ⌊q⌋
  else if q - ⌊q⌋ > 1 / 2 then ⌊q⌋ + 1
  else if ⌊q⌋ % 2 = 0 then ⌊q⌋ else ⌊q⌋ + 1

/-- Python round(x, 2): round x * 100 half-to-even, then divide by 100. -/
def pyRound2 (q : ℚ) : ℚ :=
  (roundHalfEven (q * 100) : ℚ) / 100

/-- total_sales = int(df_selection[Sales].sum()). -/
def total_sales (view : List Record) : ℤ :=
  pyInt (colSum Record.sales view)

/-- total_profit = int(df_selection[Profit].sum()). -/
def total_profit (view : List Record) : ℤ :=
  pyInt (colSum Record.profit view)

/-- average_sale = round(df_selection[Sales].mean(), 2). -/
def average_sale (view : List Record) : ℚ :=
  pyRound2 (seriesMean Record.sales view)

/-- Boolean lexicographic comparison on strings, the key order groupby
sorts by. -/
def strLe (a b : String) : Bool :=
  decide (a ≤ b)

/-- df.groupby(by = [key])[col].sum(): one entry per distinct key, keys in
sorted order (the groupby default sort = True), each paired with the sum of
the column over the rows having that key. -/
def groupbySum (key : Record → String) (col : Record → ℚ) (rows : List Record) :
    List (String × ℚ) :=
  ((uniques (rows.map key)).mergeSort strLe).map
    (fun k => (k, colSum col (rows.filter (fun r => decide (key r = k)))))

/-- sales_by_subcategory: group by Sub-Category, sum Sales, then
sort_values(ascending = True) reorders the entries by ascending summed
value (mergeSort realizes the sort; the source quicksort fixes no order
among equal values). -/
def sales_by_subcategory (view : List Record) : List (String × ℚ) :=
  (groupbySum Record.subCategory Record.sales view).mergeSort
    (fun a b => decide (a.2 ≤ b.2))

/-- sales_by_region: group by Region, sum Sales, no further sort; these
pairs are the pie chart slices (names and values). -/
def sales_by_region (view : List Record) : List (String × ℚ) :=
  groupbySum Record.region Record.sales view

/-- One section of the rendered page, in the order the script emits them. -/
inductive PageSection where
  | errorMsg (msg : String)
  | style
  | sidebarHeader (title : String)
  | multiselect (label : String) (options selected : List String)
  | warningMsg (msg : String)
  | pageTitle (title : String)
  | spacer
  | metric (label : String) (value : ℚ)
  | divider
  | header (title : String)
  | barChart (bars : List (String × ℚ))
  | pieChart (slices : List (String × ℚ))
  | dataTable (rows : List Record)
deriving DecidableEq, Repr

/-- Whether a section is one of the three KPI metric cards. -/
def PageSection.isMetric : PageSection → Bool
  | PageSection.metric _ _ => true
  | _ => false

/-- Whether a section is one of the two charts. -/
def PageSection.isChart : PageSection → Bool
  | PageSection.barChart _ => true
  | PageSection.pieChart _ => true
  | _ => false

/-- Whether a section is the raw data table. -/
def PageSection.isTable : PageSection → Bool
  | PageSection.dataTable _ => true
  | _ => false

/-- The part of the script after a successful load: CSS styling, sidebar
header, the two multiselect widgets (options and defaults are the distinct
column values; selRegion and selCategory are the values the widgets
return), the filtered dataframe, then either the empty-selection warning
followed by st.stop, or title, metrics, charts and the raw data table. -/
def renderPage (df : List Record) (selRegion selCategory : List String) :
    List PageSection :=
  let regionOptions := uniques (df.map Record.region)
  let categoryOptions := uniques (df.map Record.category)
  let sel := df_selection df selRegion selCategory
  [PageSection.style,
   PageSection.sidebarHeader ("Dashboard Filters"),
   PageSection.multiselect ("Select Region:") regionOptions selRegion,
   PageSection.multiselect ("Select Category:") categoryOptions selCategory] ++
  if sel.isEmpty then
    [PageSection.warningMsg ("No data available for the selected filters. Please adjust your selection.")]
  else
    [PageSection.pageTitle ("Superstore Sales Dashboard"),
     PageSection.spacer,
     PageSection.metric ("Total Sales") (total_sales sel : ℚ),
     PageSection.metric ("Total Profit") (total_profit sel : ℚ),
     PageSection.metric ("Average Sale Value") (average_sale sel),
     PageSection.divider,
     PageSection.header ("Charts & Analysis"),
     PageSection.barChart (sales_by_subcategory sel),
     PageSection.pieChart (sales_by_region sel),
     PageSection.dataTable sel]

/-- The whole script for one run: load the data (st.error was already shown
by load_data on failure, modelled by the Except.error message), st.stop if
the load failed, otherwise render the page. -/
def render (input : ReadResult) (selRegion selCategory : List String) :
    List PageSection :=
  match load_data input with
  | Except.error msg => [PageSection.errorMsg msg]
  | Except.ok df => renderPage df selRegion selCategory

/-- Spec-side truncation: drop the fractional part of the absolute value and
keep the sign (the fractional part is dropped, not rounded). -/
def dropFrac (q : ℚ) : ℤ :=
  if 0 ≤ q then ⌊q⌋ else -⌊-q⌋

/-- Concrete row used in witnesses: East / Furniture / Chairs, sales 100,
profit 10. -/
def rowEast : Record :=
  { region := "East", category := "Furniture", subCategory := "Chairs",
    orderDate := some ⟨1, 1, 2020⟩, sales := 100, profit := 10 }

/-- Concrete row with negative Sales and Profit, West / Furniture / Paper. -/
def rowWestNeg : Record :=
  { region := "West", category := "Furniture", subCategory := "Paper",
    orderDate := some ⟨2, 2, 2020⟩, sales := -50, profit := -5 }

/-- Two-row dataset whose second row has negative Sales and Profit. -/
def dsNeg : List Record :=
  [rowEast, rowWestNeg]

/-- One-row dataset whose Sales value has a fractional part. -/
def rowHalf : Record :=
  { region := "East", category := "Furniture", subCategory := "Chairs",
    orderDate := some ⟨1, 1, 2020⟩, sales := 1 / 2, profit := 0 }

/-- Singleton dataset used to separate the pie slice sum from the truncated
Total Sales metric. -/
def dsHalf : List Record :=
  [rowHalf]

/-- One-row dataset with nonnegative Sales and Profit. -/
def dsPos : List Record :=
  [rowEast]

/-- Membership in the deduplicated column values is membership in the
column. -/
theorem mem_uniques {a : String} {l : List String} : a ∈ uniques l ↔ a ∈ l := by
  induction l using uniques.induct with
  | case1 => simp [uniques]
  | case2 x xs ih =>
    simp only [uniques, List.mem_cons, ih, List.mem_filter]
    by_cases h : a = x <;> simp [h]

/-- The deduplicated column values contain no duplicates. -/
theorem uniques_nodup (l : List String) : (uniques l).Nodup := by
  induction l using uniques.induct with
  | case1 => simp [uniques]
  | case2 x xs ih =>
    simp only [uniques]
    refine List.nodup_cons.mpr ⟨?_, ih⟩
    intro hx
    have := mem_uniques.mp hx
    simp at this

/-- A column sum splits across a boolean partition of the rows. -/
theorem colSum_filter_split (col : Record → ℚ) (p : Record → Bool)
    (rows : List Record) :
    colSum col (rows.filter p) + colSum col (rows.filter (fun r => !(p r)))
      = colSum col rows := by
  induction rows with
  | nil => simp [colSum]
  | cons r rs ih =>
    cases hp : p r <;> simp [colSum, List.filter_cons, hp] at ih ⊢ <;> linarith

/-- Filtering keeps length minus the number of rows failing the predicate. -/
theorem length_filter_sub (p : α → Bool) (l : List α) :
    (l.filter p).length = l.length - (l.filter (fun a => !(p a))).length := by
  induction l with
  | nil => simp
  | cons a as ih =>
    have hle := List.length_filter_le (fun x => !(p x)) as
    cases hp : p a <;> simp [List.filter_cons, hp] <;> omega

/-- Summing the per-key group sums over a duplicate-free key list covering
every row gives the total column sum. -/
theorem groupsum_covers (key : Record → String) (col : Record → ℚ) :
    ∀ (ks : List String) (rows : List Record), ks.Nodup →
      (∀ r ∈ rows, key r ∈ ks) →
      ((ks.map (fun k => colSum col (rows.filter (fun r => decide (key r = k))))).sum
        = colSum col rows) := by
  intro ks
  induction ks with
  | nil =>
    intro rows _ hcov
    have hrows : rows = [] := by
      cases rows with
      | nil => rfl
      | cons r rs => exact absurd (hcov r (by simp)) (by simp)
    subst hrows
    simp [colSum]
  | cons k ks ih =>
    intro rows hnd hcov
    have hknotin : k ∉ ks := (List.nodup_cons.mp hnd).1
    have hmap : ks.map (fun c => colSum col (rows.filter (fun r => decide (key r = c))))
        = ks.map (fun c => colSum col
            ((rows.filter (fun r => !(decide (key r = k)))).filter
              (fun r => decide (key r = c)))) := by
      apply List.map_congr_left
      intro c hc
      congr 1
      rw [List.filter_filter]
      apply List.filter_congr
      intro r _
      have hck : c ≠ k := fun h => hknotin (h ▸ hc)
      by_cases h : key r = c
      · simp [h, hck]
      · simp [h]
    have hcov2 : ∀ r ∈ rows.filter (fun r => !(decide (key r = k))), key r ∈ ks := by
      intro r hr
      rcases List.mem_filter.mp hr with ⟨hr1, hr2⟩
      have := hcov r hr1
      simp only [List.mem_cons] at this
      rcases this with h | h
      · simp [h] at hr2
      · exact h
    calc ((k :: ks).map (fun c => colSum col (rows.filter (fun r => decide (key r = c))))).sum
        = colSum col (rows.filter (fun r => decide (key r = k)))
          + (ks.map (fun c => colSum col (rows.filter (fun r => decide (key r = c))))).sum := by
            simp
      _ = colSum col (rows.filter (fun r => decide (key r = k)))
          + colSum col (rows.filter (fun r => !(decide (key r = k)))) := by
            rw [hmap, ih _ (List.nodup_cons.mp hnd).2 hcov2]
      _ = colSum col rows := colSum_filter_split col _ rows

/-- The values of a grouped sum add up to the column sum over all rows. -/
theorem groupbySum_snd_sum (key : Record → String) (col : Record → ℚ)
    (rows : List Record) :
    ((groupbySum key col rows).map Prod.snd).sum = colSum col rows := by
  unfold groupbySum
  rw [List.map_map]
  have hperm : ((uniques (rows.map key)).mergeSort strLe).Perm (uniques (rows.map key)) :=
    List.mergeSort_perm _ _
  rw [(hperm.map _).sum_eq]
  exact groupsum_covers key col _ rows (uniques_nodup _)
    (fun r hr => mem_uniques.mpr (List.mem_map_of_mem key hr))

/-- The pie slice values of sales_by_region add up to the Sales column sum
of the view. -/
theorem sales_by_region_snd_sum (view : List Record) :
    ((sales_by_region view).map Prod.snd).sum = colSum Record.sales view :=
  groupbySum_snd_sum Record.region Record.sales view

/-- Truncation toward zero is monotone. -/
theorem pyInt_mono {a b : ℚ} (h : a ≤ b) : pyInt a ≤ pyInt b := by
  unfold pyInt
  split_ifs with h1 h2 h2
  · exact Int.floor_le_floor h
  · exact absurd (le_trans h1 h) h2
  · calc ⌈a⌉ ≤ 0 := Int.ceil_le.mpr (by push_cast; linarith [not_le.mp h1])
      _ ≤ ⌊b⌋ := Int.le_floor.mpr (by push_cast; linarith)
  · exact Int.ceil_le_ceil h

/-- Truncation toward zero agrees with dropping the fractional part of the
absolute value while keeping the sign. -/
theorem pyInt_eq_dropFrac (q : ℚ) : pyInt q = dropFrac q := by
  unfold pyInt dropFrac
  split_ifs with h
  · rfl
  · rw [Int.floor_neg, neg_neg]

/-- Half-to-even rounding moves a rational by at most one half. -/
theorem abs_roundHalfEven_sub_le (q : ℚ) : |(roundHalfEven q : ℚ) - q| ≤ 1 / 2 := by
  have h0 : (⌊q⌋ : ℚ) ≤ q := Int.floor_le q
  have h1 : q < ⌊q⌋ + 1 := Int.lt_floor_add_one q
  unfold roundHalfEven
  split_ifs with hlt hgt hev <;>
    · rw [abs_le]
      constructor <;> push_cast <;> linarith

/-- C2: for every dataset and filter selection, a row of the dataset is in
the filtered view produced by df.query iff its Region value is one of the
selected regions and its Category value is one of the selected
categories. -/
theorem C2_filter_membership (df : List Record) (region category : List String)
    (r : Record) (h : r ∈ df) :
    r ∈ df_selection df region category ↔
      (r.region ∈ region ∧ r.category ∈ category) := by
  simp [df_selection, List.mem_filter, h]

/-- Witness for C2 at a concrete dataset, row and selection. -/
theorem C2_witness :
    rowEast ∈ dsNeg ∧
      (rowEast ∈ df_selection dsNeg ["East"] ["Furniture"] ↔
        (rowEast.region ∈ ["East"] ∧ rowEast.category ∈ ["Furniture"])) :=
  ⟨by simp [dsNeg],
   C2_filter_membership dsNeg ["East"] ["Furniture"] rowEast (by simp [dsNeg])⟩

/-- C3: filtering with the default selection, namely all distinct Region
values and all distinct Category values of the dataset, returns the
dataset unchanged. -/
theorem C3_default_selection_identity (df : List Record) :
    df_selection df (uniques (df.map Record.region))
        (uniques (df.map Record.category)) = df := by
  apply List.filter_eq_self.mpr
  intro r hr
  simp only [Bool.and_eq_true, decide_eq_true_eq]
  exact ⟨mem_uniques.mpr (List.mem_map_of_mem Record.region hr),
    mem_uniques.mpr (List.mem_map_of_mem Record.category hr)⟩

/-- C9: on a missing file the render is exactly the fixed load-error
message and nothing else (no filter widgets, no later section); on any
other read exception it is exactly the message built from the underlying
error; in both cases load_data produces no dataset. -/
theorem C9_load_failure_halts (e : String) (selRegion selCategory : List String) :
    render ReadResult.fileNotFound selRegion selCategory
        = [PageSection.errorMsg ("Error: The file superstore_sales.csv was not found. Please make sure it is in the same folder as the script.")] ∧
      render (ReadResult.otherError e) selRegion selCategory
        = [PageSection.errorMsg ("An error occurred while loading the data: " ++ e)] ∧
      (∀ df, load_data ReadResult.fileNotFound ≠ Except.ok df) ∧
      (∀ df, load_data (ReadResult.otherError e) ≠ Except.ok df) :=
  ⟨rfl, rfl, fun df h => by simp [load_data] at h,
    fun df h => by simp [load_data] at h⟩

/-- C10: the filtered view is an order-preserving subsequence of the
dataset: List.Sublist gives that every view row is a dataset row taken
unchanged, none is duplicated or invented, and relative order is kept. -/
theorem C10_view_sublist (df : List Record) (selRegion selCategory : List String) :
    (df_selection df selRegion selCategory).Sublist df :=
  List.filter_sublist df

/-- C8: when the filtered view is empty the page is exactly style, sidebar
and widgets followed by the warning, so rendering halts before any metric,
chart or table section, and no section of those kinds occurs. -/
theorem C8_empty_view_warns (df : List Record) (selRegion selCategory : List String)
    (h : df_selection df selRegion selCategory = []) :
    renderPage df selRegion selCategory =
        [PageSection.style,
         PageSection.sidebarHeader ("Dashboard Filters"),
         PageSection.multiselect ("Select Region:")
           (uniques (df.map Record.region)) selRegion,
         PageSection.multiselect ("Select Category:")
           (uniques (df.map Record.category)) selCategory,
         PageSection.warningMsg ("No data available for the selected filters. Please adjust your selection.")] ∧
      ∀ s ∈ renderPage df selRegion selCategory,
        s.isMetric = false ∧ s.isChart = false ∧ s.isTable = false := by
  have h1 : renderPage df selRegion selCategory =
      [PageSection.style,
       PageSection.sidebarHeader ("Dashboard Filters"),
       PageSection.multiselect ("Select Region:")
         (uniques (df.map Record.region)) selRegion,
       PageSection.multiselect ("Select Category:")
         (uniques (df.map Record.category)) selCategory,
       PageSection.warningMsg ("No data available for the selected filters. Please adjust your selection.")] := by
    simp [renderPage, h]
  refine ⟨h1, ?_⟩
  rw [h1]
  intro s hs
  simp only [List.mem_cons, List.not_mem_nil, or_false] at hs
  rcases hs with rfl | rfl | rfl | rfl | rfl <;>
    exact ⟨rfl, rfl, rfl⟩

/-- Witness for C8: the two-row dataset with an empty selection renders
the warning page. -/
theorem C8_witness :
    df_selection dsNeg [] [] = [] ∧
      renderPage dsNeg [] [] =
        [PageSection.style,
         PageSection.sidebarHeader ("Dashboard Filters"),
         PageSection.multiselect ("Select Region:")
           (uniques (dsNeg.map Record.region)) [],
         PageSection.multiselect ("Select Category:")
           (uniques (dsNeg.map Record.category)) [],
         PageSection.warningMsg ("No data available for the selected filters. Please adjust your selection.")] := by
  have h : df_selection dsNeg [] [] = [] := by
    simp [df_selection, dsNeg]
  exact ⟨h, (C8_empty_view_warns dsNeg [] [] h).1⟩

/-- C4: the loader keeps exactly the input rows whose Order Date parses
under the fixed MM/DD/YYYY format (with the date column coerced), every
retained row has a parsed date, and the dataset size is the input size
minus the number of rows with unparseable dates. -/
theorem C4_loader_drops_bad_dates (rows : List RawRecord) :
    load_data_rows rows
        = (rows.filter (fun r => (parseMDY r.orderDate).isSome)).map coerceOrderDate ∧
      (∀ r ∈ load_data_rows rows, r.orderDate.isSome = true) ∧
      (load_data_rows rows).length
        = rows.length
          - (rows.filter (fun r => decide (parseMDY r.orderDate = none))).length := by
  have hcomp : ((fun r : Record => !(r.orderDate.isSome)) ∘ coerceOrderDate)
      = fun r : RawRecord => decide (parseMDY r.orderDate = none) := by
    funext r
    cases h : parseMDY r.orderDate <;> simp [coerceOrderDate, Function.comp, h]
  refine ⟨?_, ?_, ?_⟩
  · unfold load_data_rows
    rw [List.filter_map]
    rfl
  · intro r hr
    exact (List.mem_filter.mp hr).2
  · unfold load_data_rows
    rw [length_filter_sub, List.length_map, List.filter_map, List.length_map, hcomp]

/-- C5: on a view the Total Sales and Total Profit metrics are the column
sums with the fractional part dropped (truncation toward zero, not
rounding), and the Average Sale metric is a multiple of 1/100 within half
of 1/100 of the arithmetic mean of Sales: the mean rounded to 2 decimal
places. -/
theorem C5_metric_formulas (view : List Record) (_hne : view ≠ []) :
    total_sales view = dropFrac (colSum Record.sales view) ∧
      total_profit view = dropFrac (colSum Record.profit view) ∧
      (∃ n : ℤ, average_sale view = (n : ℚ) / 100) ∧
      |average_sale view - seriesMean Record.sales view| ≤ 1 / 200 := by
  refine ⟨pyInt_eq_dropFrac _, pyInt_eq_dropFrac _,
    ⟨roundHalfEven (seriesMean Record.sales view * 100), rfl⟩, ?_⟩
  have h := abs_roundHalfEven_sub_le (seriesMean Record.sales view * 100)
  have heq : average_sale view - seriesMean Record.sales view
      = ((roundHalfEven (seriesMean Record.sales view * 100) : ℚ)
          - seriesMean Record.sales view * 100) / 100 := by
    unfold average_sale pyRound2
    ring
  rw [heq, abs_div]
  rw [abs_of_pos (show (0:ℚ) < 100 by norm_num)]
  rw [div_le_iff₀ (show (0:ℚ) < 100 by norm_num)]
  linarith

/-- Witness for C5 on a nonempty concrete view. -/
theorem C5_witness :
    dsNeg ≠ [] ∧
      (total_sales dsNeg = dropFrac (colSum Record.sales dsNeg) ∧
        total_profit dsNeg = dropFrac (colSum Record.profit dsNeg) ∧
        (∃ n : ℤ, average_sale dsNeg = (n : ℚ) / 100) ∧
        |average_sale dsNeg - seriesMean Record.sales dsNeg| ≤ 1 / 200) :=
  ⟨by simp [dsNeg], C5_metric_formulas dsNeg (by simp [dsNeg])⟩

/-- C6: the bar chart series, grouped Sales sums sorted ascending, has its
adjacent entries in nondecreasing order of summed Sales. -/
theorem C6_bars_sorted (view : List Record) (_hne : view ≠ []) :
    List.Chain' (fun a b : String × ℚ => a.2 ≤ b.2) (sales_by_subcategory view) := by
  have htrans : ∀ (a b c : String × ℚ),
      (fun x y : String × ℚ => decide (x.2 ≤ y.2)) a b = true →
      (fun x y : String × ℚ => decide (x.2 ≤ y.2)) b c = true →
      (fun x y : String × ℚ => decide (x.2 ≤ y.2)) a c = true := by
    intro a b c hab hbc
    simp only [decide_eq_true_eq] at hab hbc ⊢
    exact le_trans hab hbc
  have htotal : ∀ (a b : String × ℚ),
      ((fun x y : String × ℚ => decide (x.2 ≤ y.2)) a b
        || (fun x y : String × ℚ => decide (x.2 ≤ y.2)) b a) = true := by
    intro a b
    simp only [Bool.or_eq_true, decide_eq_true_eq]
    exact le_total a.2 b.2
  have hs := List.sorted_mergeSort htrans htotal
    (groupbySum Record.subCategory Record.sales view)
  exact (hs.imp (fun h => decide_eq_true_eq.mp h)).chain'

/-- Witness for C6 on a nonempty concrete view. -/
theorem C6_witness :
    dsNeg ≠ [] ∧
      List.Chain' (fun a b : String × ℚ => a.2 ≤ b.2) (sales_by_subcategory dsNeg) :=
  ⟨by simp [dsNeg], C6_bars_sorted dsNeg (by simp [dsNeg])⟩

/-- C7 (amended): the pie slice values add up to the untruncated sum of the
Sales column of the view, and the Total Sales metric is exactly that slice
sum truncated toward zero by int(); the two coincide whenever the Sales sum
is an integer, but not in general. -/
theorem C7_slices_sum_to_sales (view : List Record) (_hne : view ≠ []) :
    ((sales_by_region view).map Prod.snd).sum = colSum Record.sales view ∧
      total_sales view = pyInt (((sales_by_region view).map Prod.snd).sum) := by
  refine ⟨sales_by_region_snd_sum view, ?_⟩
  rw [sales_by_region_snd_sum view]
  rfl

/-- Witness for C7 on a nonempty concrete view. -/
theorem C7_witness :
    dsHalf ≠ [] ∧
      (((sales_by_region dsHalf).map Prod.snd).sum = colSum Record.sales dsHalf ∧
        total_sales dsHalf = pyInt (((sales_by_region dsHalf).map Prod.snd).sum)) :=
  ⟨by simp [dsHalf], C7_slices_sum_to_sales dsHalf (by simp [dsHalf])⟩

/-- Counterexample for C7 as stated: on a one-row view whose Sales value is
1/2 the pie slice values add up to 1/2 while the Total Sales metric is
int(1/2) = 0, so the slice sum differs from the metric. -/
theorem C7_counterexample :
    ((sales_by_region dsHalf).map Prod.snd).sum ≠ ((total_sales dsHalf : ℤ) : ℚ) := by
  rw [sales_by_region_snd_sum]
  have h1 : colSum Record.sales dsHalf = 1 / 2 := by
    simp [colSum, dsHalf, rowHalf]
  have h2 : total_sales dsHalf = 0 := by
    unfold total_sales pyInt
    rw [h1]
    norm_num
  rw [h1, h2]
  norm_num

/-- C1 (amended): when every Sales and every Profit value of the dataset is
nonnegative, widening the selection (regions and categories each grow to a
superset) cannot decrease the Total Sales metric or the Total Profit
metric. -/
theorem C1_widen_monotone_of_nonneg (df : List Record)
    (r1 r2 c1 c2 : List String)
    (hsales : ∀ r ∈ df, 0 ≤ r.sales) (hprofit : ∀ r ∈ df, 0 ≤ r.profit)
    (hr : r1 ⊆ r2) (hc : c1 ⊆ c2) :
    total_sales (df_selection df r1 c1) ≤ total_sales (df_selection df r2 c2) ∧
      total_profit (df_selection df r1 c1) ≤ total_profit (df_selection df r2 c2) := by
  have hsub : (df_selection df r1 c1).Sublist (df_selection df r2 c2) := by
    apply List.monotone_filter_right
    intro a ha
    simp only [Bool.and_eq_true, decide_eq_true_eq] at ha ⊢
    exact ⟨hr ha.1, hc ha.2⟩
  constructor
  · apply pyInt_mono
    show (List.map Record.sales (df_selection df r1 c1)).sum
        ≤ (List.map Record.sales (df_selection df r2 c2)).sum
    apply List.Sublist.sum_le_sum (hsub.map Record.sales)
    intro a ha
    rcases List.mem_map.mp ha with ⟨r, hr2, rfl⟩
    exact hsales r ((List.filter_sublist df).subset hr2)
  · apply pyInt_mono
    show (List.map Record.profit (df_selection df r1 c1)).sum
        ≤ (List.map Record.profit (df_selection df r2 c2)).sum
    apply List.Sublist.sum_le_sum (hsub.map Record.profit)
    intro a ha
    rcases List.mem_map.mp ha with ⟨r, hr2, rfl⟩
    exact hprofit r ((List.filter_sublist df).subset hr2)

/-- Witness for C1 on a concrete nonnegative dataset and a widened
selection. -/
theorem C1_witness :
    ((∀ r ∈ dsPos, 0 ≤ r.sales) ∧ (∀ r ∈ dsPos, 0 ≤ r.profit) ∧
        (["East"] : List String) ⊆ ["East", "West"] ∧
        (["Furniture"] : List String) ⊆ ["Furniture"]) ∧
      (total_sales (df_selection dsPos ["East"] ["Furniture"])
          ≤ total_sales (df_selection dsPos ["East", "West"] ["Furniture"]) ∧
        total_profit (df_selection dsPos ["East"] ["Furniture"])
          ≤ total_profit (df_selection dsPos ["East", "West"] ["Furniture"])) := by
  have h1 : ∀ r ∈ dsPos, 0 ≤ r.sales := by
    intro r hrm
    simp only [dsPos, List.mem_singleton] at hrm
    subst hrm
    norm_num [rowEast]
  have h2 : ∀ r ∈ dsPos, 0 ≤ r.profit := by
    intro r hrm
    simp only [dsPos, List.mem_singleton] at hrm
    subst hrm
    norm_num [rowEast]
  have h3 : (["East"] : List String) ⊆ ["East", "West"] := by simp
  have h4 : (["Furniture"] : List String) ⊆ ["Furniture"] := by simp
  exact ⟨⟨h1, h2, h3, h4⟩,
    C1_widen_monotone_of_nonneg dsPos ["East"] ["East", "West"]
      ["Furniture"] ["Furniture"] h1 h2 h3 h4⟩

/-- Counterexample for C1 as stated: on the two-row dataset whose West row
has Sales -50 and Profit -5, widening the region selection from {East} to
{East, West} strictly decreases both Total Sales (100 to 50) and Total
Profit (10 to 5). -/
theorem C1_counterexample :
    ((["East"] : List String) ⊆ ["East", "West"] ∧
        (["Furniture"] : List String) ⊆ ["Furniture"]) ∧
      ¬ (total_sales (df_selection dsNeg ["East"] ["Furniture"])
            ≤ total_sales (df_selection dsNeg ["East", "West"] ["Furniture"]) ∧
          total_profit (df_selection dsNeg ["East"] ["Furniture"])
            ≤ total_profit (df_selection dsNeg ["East", "West"] ["Furniture"])) := by
  have hv1 : df_selection dsNeg ["East"] ["Furniture"] = [rowEast] := by rfl
  have hv2 : df_selection dsNeg ["East", "West"] ["Furniture"]
      = [rowEast, rowWestNeg] := by rfl
  have hs1 : total_sales [rowEast] = 100 := by
    unfold total_sales colSum pyInt
    norm_num [rowEast]
  have hs2 : total_sales [rowEast, rowWestNeg] = 50 := by
    unfold total_sales colSum pyInt
    norm_num [rowEast, rowWestNeg]
  have hp1 : total_profit [rowEast] = 10 := by
    unfold total_profit colSum pyInt
    norm_num [rowEast]
  have hp2 : total_profit [rowEast, rowWestNeg] = 5 := by
    unfold total_profit colSum pyInt
    norm_num [rowEast, rowWestNeg]
  refine ⟨⟨by simp, by simp⟩, ?_⟩
  rw [hv1, hv2, hs1, hs2, hp1, hp2]
  omega
